import Mathlib

/-!
Verification of the backend gateway (`src/backend/app/main.py`,
`src/backend/app/models.py`): a FastAPI service that proxies a product
catalog to an upstream data service and handles user registration and
token-based authentication locally.

Pure shallow embedding: each route handler becomes a Lean function from
its inputs (query filters, request body, the upstream HTTP outcome, the
in-memory user store) to the response it produces.  The helper module
`app/auth.py` is not part of the sources; its functions
(`get_password_hash`, `verify_password`, `create_access_token`,
`get_current_user` and token verification) are modelled from the spec,
each marked as such in its doc comment.
-/

namespace Gateway

/-- The three upstream request shapes `get_products` can build:
`/products/category/{category}`, `/products/price/{max_price}`,
or the plain `/products` list. -/
inductive UpstreamRequest where
  | byCategory (category : String)
  | byMaxPrice (max_price : ℚ)
  | all
  deriving DecidableEq, Repr

/-- Python truthiness of an optional string query parameter:
`None` and the empty string are falsy. -/
def truthyStr : Option String → Bool
  | none => false
  | some s => !s.isEmpty

/-- Python truthiness of an optional numeric query parameter:
`None` and `0` are falsy. -/
def truthyNum : Option ℚ → Bool
  | none => false
  | some q => q != 0

/-- The upstream request chosen by `get_products` for given query filters,
mirroring the source's `if category: ... elif max_price: ... else: ...`
dispatch (Python truthiness: empty string and zero are falsy). -/
def get_products_request (category : Option String) (max_price : Option ℚ) :
    UpstreamRequest :=
  if truthyStr category then .byCategory (category.getD "")
  else if truthyNum max_price then .byMaxPrice (max_price.getD 0)
  else .all

/-- Outcome of one `requests` call to the data service: either a transport
failure (`requests.RequestException` raised by the call itself, carrying
its error text) or an HTTP response with a status code and a raw body. -/
inductive UpstreamOutcome where
  | transportError (msg : String)
  | resp (code : ℕ) (body : String)
  deriving DecidableEq, Repr

/-- The error text of the `requests.HTTPError` raised by
`Response.raise_for_status()` on a 4xx/5xx status. -/
def raise_for_status_msg (code : ℕ) : String :=
  toString code ++ (if code < 500 then " Client Error" else " Server Error")

/-- A gateway response: success with an HTTP status and an optional
passthrough body, or an `HTTPException` with a status code and detail. -/
inductive GatewayResult where
  | ok (stat : ℕ) (body : Option String)
  | httpError (stat : ℕ) (detail : String)
  deriving DecidableEq, Repr

/-- The HTTP status of a gateway response. -/
def GatewayResult.stat : GatewayResult → ℕ
  | .ok s _ => s
  | .httpError s _ => s

/-- The 503 `HTTPException` built by every product handler's
`except requests.RequestException` clause. -/
def unavailable (msg : String) : GatewayResult :=
  .httpError 503 ("Data service unavailable: " ++ msg)

/-- Response mapping of `get_products`: no 404 check — any 4xx/5xx is
raised by `raise_for_status()` and converted to 503; otherwise the
upstream body is passed through with status 200. -/
def get_products_map (u : UpstreamOutcome) : GatewayResult :=
  match u with
  | .transportError m => unavailable m
  | .resp code body =>
      if 400 ≤ code then unavailable (raise_for_status_msg code)
      else .ok 200 (some body)

/-- Response mapping of `get_product`: upstream 404 raises an
`HTTPException 404` (not caught by the `RequestException` clause); other
4xx/5xx become 503 via `raise_for_status()`; otherwise passthrough. -/
def get_product_map (product_id : ℤ) (u : UpstreamOutcome) : GatewayResult :=
  match u with
  | .transportError m => unavailable m
  | .resp code body =>
      if code = 404 then
        .httpError 404 ("Product with ID " ++ toString product_id ++ " not found")
      else if 400 ≤ code then unavailable (raise_for_status_msg code)
      else .ok 200 (some body)

/-- Response mapping of `create_product`: no 404 check, like the list
endpoint; success is returned with status 201. -/
def create_product_map (u : UpstreamOutcome) : GatewayResult :=
  match u with
  | .transportError m => unavailable m
  | .resp code body =>
      if 400 ≤ code then unavailable (raise_for_status_msg code)
      else .ok 201 (some body)

/-- Response mapping of `update_product`: same 404 check as
`get_product`. -/
def update_product_map (product_id : ℤ) (u : UpstreamOutcome) : GatewayResult :=
  match u with
  | .transportError m => unavailable m
  | .resp code body =>
      if code = 404 then
        .httpError 404 ("Product with ID " ++ toString product_id ++ " not found")
      else if 400 ≤ code then unavailable (raise_for_status_msg code)
      else .ok 200 (some body)

/-- Response mapping of `delete_product`: 404 check like `get_product`;
success returns no body with status 204. -/
def delete_product_map (product_id : ℤ) (u : UpstreamOutcome) : GatewayResult :=
  match u with
  | .transportError m => unavailable m
  | .resp code _ =>
      if code = 404 then
        .httpError 404 ("Product with ID " ++ toString product_id ++ " not found")
      else if 400 ≤ code then unavailable (raise_for_status_msg code)
      else .ok 204 none

/-- Body of the `/health` response. -/
structure HealthBody where
  stat : String
  data_service : Option String
  error : Option String
  deriving DecidableEq, Repr

/-- Handler `health_check`: probes the upstream list-products call; upstream 200
→ healthy/connected, any other status → degraded/unavailable, any
exception → degraded carrying the error text.  Always HTTP 200. -/
def health_check (u : UpstreamOutcome) : ℕ × HealthBody :=
  match u with
  | .resp code _ =>
      if code = 200 then (200, ⟨"healthy", some "connected", none⟩)
      else (200, ⟨"degraded", some "unavailable", none⟩)
  | .transportError m => (200, ⟨"degraded", none, some m⟩)

/-- A record stored in `users_db` for one registered user, with the
fields written by `register_user`. -/
structure UserRecord where
  username : String
  email : String
  hashed_password : String
  disabled : Bool
  deriving DecidableEq, Repr

/-- The in-memory user database `users_db`: a Python dict from username
to record, embedded as an association list in insertion order with
unique keys. -/
abbrev UsersDb := List (String × UserRecord)

/-- Lookup in `users_db` (the dict access `users_db.get(username)` /
the membership test `username in users_db`). -/
def users_find : UsersDb → String → Option UserRecord
  | [], _ => none
  | (k, v) :: rest, u => if k = u then some v else users_find rest u

/-- Modelled from the spec: `get_password_hash` lives in `app/auth.py`,
which is absent from the sources.  Spec §4.1 describes a deterministic
one-way transform; modelled as a tagged injection, so a hash is never
equal to any plaintext of the same length class. -/
def get_password_hash (password : String) : String :=
  "$2b$" ++ password

/-- Modelled from the spec: `verify_password` (app/auth.py), spec §4.1 —
true iff the password matches the hash. -/
def verify_password (password hash : String) : Bool :=
  hash = get_password_hash password

/-- Request body of `POST /users` (model `UserCreate`). -/
structure UserCreate where
  username : String
  email : String
  password : String
  deriving DecidableEq, Repr

/-- Response body of the user endpoints (model `UserResponse`): no
password material. -/
structure UserResponse where
  username : String
  email : String
  disabled : Bool
  deriving DecidableEq, Repr

/-- Result of `register_user`: a 201 with the created user's public
fields, or an `HTTPException` with status and detail. -/
inductive RegisterResult where
  | created (stat : ℕ) (resp : UserResponse)
  | error (stat : ℕ) (detail : String)
  deriving DecidableEq, Repr

/-- Handler `register_user`: rejects a username already present with an
`HTTPException 400`, otherwise stores a record holding the password hash
and returns 201 with the public fields. -/
def register_user (db : UsersDb) (user : UserCreate) :
    RegisterResult × UsersDb :=
  if (users_find db user.username).isSome then
    (.error 400 "Username already registered", db)
  else
    (.created 201 ⟨user.username, user.email, false⟩,
     db ++ [(user.username,
       ⟨user.username, user.email, get_password_hash user.password, false⟩)])

/-- A sequence of `register_user` calls starting from a given store,
keeping only the store (the only mutating operation in scope). -/
def register_seq (db : UsersDb) : List UserCreate → UsersDb
  | [] => db
  | u :: rest => register_seq (register_user db u).2 rest

/-- Modelled from the spec: the payload a signed token embeds — subject
and expiry timestamp (spec §4.2, `app/auth.py` absent from sources). -/
structure TokenPayload where
  sub : String
  exp : ℕ
  deriving DecidableEq, Repr

/-- Modelled from the spec: a bearer token as presented by a client —
either properly signed with a readable payload, or malformed/forged
(bad signature, undecodable). -/
inductive BearerToken where
  | signed (payload : TokenPayload)
  | malformed (raw : String)
  deriving DecidableEq, Repr

/-- Modelled from the spec: the fixed token lifetime — spec §4.2 says the
expiry is a fixed duration from issuance; the concrete value is
immaterial to the claims. -/
def access_token_lifetime : ℕ := 1800

/-- Modelled from the spec: `create_access_token` (app/auth.py) — issues
a signed token embedding the subject and an expiry a fixed duration from
issuance; stateless. -/
def create_access_token (sub : String) (now : ℕ) : BearerToken :=
  .signed ⟨sub, now + access_token_lifetime⟩

/-- Modelled from the spec: token verification (app/auth.py) — fails if
the signature is invalid, the token malformed, or the expiry has passed;
otherwise yields the embedded subject. -/
def verify_token (tok : BearerToken) (now : ℕ) : Option String :=
  match tok with
  | .malformed _ => none
  | .signed p => if p.exp ≤ now then none else some p.sub

/-- Result of `POST /token`: the token response or an
`HTTPException 401`. -/
inductive LoginResult where
  | token (access_token : BearerToken) (token_type : String)
  | unauthorized (stat : ℕ) (detail : String)
  deriving DecidableEq, Repr

/-- Handler `login_for_access_token`: looks the username up in
`users_db`; a missing user or a password that does not verify against
the stored hash yields 401, otherwise a bearer token for subject
`username`. -/
def login_for_access_token (db : UsersDb) (username password : String)
    (now : ℕ) : LoginResult :=
  match users_find db username with
  | none => .unauthorized 401 "Incorrect username or password"
  | some user =>
      if verify_password password user.hashed_password then
        .token (create_access_token username now) "bearer"
      else .unauthorized 401 "Incorrect username or password"

/-- Modelled from the spec: `get_current_user` (app/auth.py), spec §4.4 —
extract the bearer token from the Authorization header (`none` when the
header is absent), verify it, then look the subject up in the user
store; an absent or invalid token or a missing user fails with 401. -/
def get_current_user (db : UsersDb) (auth : Option BearerToken)
    (now : ℕ) : Except ℕ UserRecord :=
  match auth with
  | none => .error 401
  | some tok =>
      match verify_token tok now with
      | none => .error 401
      | some sub =>
          match users_find db sub with
          | none => .error 401
          | some u => .ok u

/-- The routes of `main.py`. -/
inductive Endpoint where
  | root
  | health
  | listProducts
  | getProduct
  | createProduct
  | updateProduct
  | deleteProduct
  | registerUser
  | token
  | usersMe
  deriving DecidableEq, Repr

/-- Which handlers in `main.py` declare the
`current_user ... = Depends(get_current_user)` parameter. -/
def requires_auth : Endpoint → Bool
  | .createProduct => true
  | .updateProduct => true
  | .deleteProduct => true
  | .usersMe => true
  | _ => false

/-- A JSON value as far as the update body needs: null, string, or a
number (rationals model the exact decimal literals of a request). -/
inductive JValue where
  | null
  | str (s : String)
  | num (q : ℚ)
  | int (n : ℤ)
  deriving DecidableEq, Repr

/-- The five declared fields of the `ProductUpdate` model. -/
inductive PField where
  | name
  | description
  | price
  | stock_quantity
  | category
  deriving DecidableEq, Repr

/-- The `ProductUpdate` model: every field optional with default `None`,
plus pydantic's record of which fields the caller explicitly provided
(`__fields_set__`), which `.dict(exclude_unset=True)` consults. -/
structure ProductUpdate where
  name : Option String := none
  description : Option String := none
  price : Option ℚ := none
  stock_quantity : Option ℤ := none
  category : Option String := none
  fields_set : List PField := []
  deriving DecidableEq, Repr

/-- Validation and assignment of one provided field, with the `Field`
bounds of `models.py` (`price` strictly positive, `stock_quantity`
non-negative); a `null` explicitly sets the field to `None`. -/
def setField (u : ProductUpdate) : PField → JValue → Option ProductUpdate
  | .name, .str s => some { u with name := some s }
  | .name, .null => some { u with name := none }
  | .description, .str s => some { u with description := some s }
  | .description, .null => some { u with description := none }
  | .price, .num q =>
      if 0 < q then some { u with price := some q } else none
  | .price, .null => some { u with price := none }
  | .stock_quantity, .int n =>
      if 0 ≤ n then some { u with stock_quantity := some n } else none
  | .stock_quantity, .null => some { u with stock_quantity := none }
  | .category, .str s => some { u with category := some s }
  | .category, .null => some { u with category := none }
  | _, _ => none

/-- Parsing a request body into a `ProductUpdate` starting from a given
accumulator: each provided key is validated, assigned, and recorded in
`fields_set`. -/
def parseFrom (u : ProductUpdate) :
    List (PField × JValue) → Option ProductUpdate
  | [] => some u
  | (f, v) :: rest =>
      match setField u f v with
      | none => none
      | some u2 =>
          parseFrom { u2 with fields_set :=
            if f ∈ u.fields_set then u.fields_set
            else u.fields_set ++ [f] } rest

/-- Pydantic validation of a `PUT /products/{id}` request body: the
fields the caller provided, in order. -/
def parseProductUpdate (kvs : List (PField × JValue)) :
    Option ProductUpdate :=
  parseFrom {} kvs

/-- A field value serialized back to JSON (unset becomes `null`). -/
def optStr : Option String → JValue
  | none => .null
  | some s => .str s

/-- A numeric field value serialized back to JSON. -/
def optNum : Option ℚ → JValue
  | none => .null
  | some q => .num q

/-- An integer field value serialized back to JSON. -/
def optInt : Option ℤ → JValue
  | none => .null
  | some n => .int n

/-- Plain pydantic `.dict()`: every declared field, unset ones as
`null`. -/
def ProductUpdate.dict (u : ProductUpdate) : List (PField × JValue) :=
  [(.name, optStr u.name), (.description, optStr u.description),
   (.price, optNum u.price), (.stock_quantity, optInt u.stock_quantity),
   (.category, optStr u.category)]

/-- Pydantic `.dict(exclude_unset=True)`: the full dict restricted to
the explicitly set fields. -/
def ProductUpdate.dictExcludeUnset (u : ProductUpdate) :
    List (PField × JValue) :=
  u.dict.filter (fun kv => decide (kv.1 ∈ u.fields_set))

/-- The JSON body `update_product` forwards upstream:
`product.dict(exclude_unset=True)`. -/
def update_product_body (u : ProductUpdate) : List (PField × JValue) :=
  u.dictExcludeUnset

/-- FastAPI dependency resolution for a protected handler: the guard runs
first; if it fails, its 401 is the response and the handler never runs;
on success the resolved user is injected into the handler.  The boolean
records whether the handler ran. -/
def protect (db : UsersDb) (auth : Option BearerToken) (now : ℕ)
    (handler : UserRecord → GatewayResult) : GatewayResult × Bool :=
  match get_current_user db auth now with
  | .error code => (.httpError code "Not authenticated", false)
  | .ok u => (handler u, true)

end Gateway

open Gateway

/-- C1 counterexample: with `category=""` and `max_price=10` both supplied,
`get_products` takes the max_price path, not the category path — the claim
that category wins whenever both filters are supplied is false. -/
theorem get_products_both_supplied_counterexample :
    get_products_request (some "") (some 10) = .byMaxPrice 10 ∧
      get_products_request (some "") (some 10) ≠ .byCategory "" := by
  constructor <;> decide

/-- C1 (amended): when both filters are supplied and the category is
non-empty, the category path is used and max_price is ignored; a supplied
truthy filter alone selects its own path; with no truthy filter the
unfiltered list path is used. -/
theorem get_products_filter_dispatch :
    (∀ c p, c ≠ "" → get_products_request (some c) (some p) = .byCategory c) ∧
    (∀ c, c ≠ "" → get_products_request (some c) none = .byCategory c) ∧
    (∀ p, p ≠ 0 → get_products_request none (some p) = .byMaxPrice p) ∧
    get_products_request none none = .all := by
  refine ⟨?_, ?_, ?_, rfl⟩
  · intro c p hc
    simp [get_products_request, truthyStr, String.isEmpty_iff, hc]
  · intro c hc
    simp [get_products_request, truthyStr, String.isEmpty_iff, hc]
  · intro p hp
    simp [get_products_request, truthyStr, truthyNum, bne_iff_ne, hp]

/-- C1 witness: the dispatch theorem instantiated on concrete filters. -/
theorem get_products_filter_dispatch_witness :
    get_products_request (some "books") (some 5) = .byCategory "books" ∧
      get_products_request none (some 5) = .byMaxPrice 5 :=
  ⟨get_products_filter_dispatch.1 "books" 5 (by decide),
   get_products_filter_dispatch.2.2.1 5 (by decide)⟩

/-- C10: falsy filter values are treated as absent — an empty-string
category never selects the category path (so a truthy max_price wins),
and a zero max_price never selects the price path. -/
theorem get_products_falsy_filters_absent :
    (∀ mp c, get_products_request (some "") mp ≠ .byCategory c) ∧
    (∀ p, p ≠ 0 → get_products_request (some "") (some p) = .byMaxPrice p) ∧
    get_products_request none (some 0) = .all ∧
    get_products_request (some "") (some 0) = .all := by
  have he : "".isEmpty = true := rfl
  refine ⟨?_, ?_, by decide, by decide⟩
  · intro mp c
    cases mp with
    | none => simp [get_products_request, truthyStr, truthyNum, he]
    | some p =>
        simp only [get_products_request, truthyStr, he]
        by_cases hp : truthyNum (some p) <;> simp [hp]
  · intro p hp
    simp [get_products_request, truthyStr, truthyNum, bne_iff_ne, hp, he]

/-- C10 witness: falsy-filter behaviour at concrete inputs. -/
theorem get_products_falsy_filters_absent_witness :
    get_products_request (some "") (some 7) = .byMaxPrice 7 ∧
      get_products_request (some "") (some 3) ≠ .byCategory "x" :=
  ⟨get_products_falsy_filters_absent.2.1 7 (by decide),
   get_products_falsy_filters_absent.1 (some 3) "x"⟩

/-- C5 counterexample: on the list endpoint an upstream 404 is raised by
`raise_for_status()` and mapped to 503, not to a gateway 404 — the claim
that every product operation maps upstream 404 to NotFound is false. -/
theorem upstream_404_on_list_counterexample :
    get_products_map (.resp 404 "err") =
      .httpError 503 "Data service unavailable: 404 Client Error" ∧
      (get_products_map (.resp 404 "err")).stat ≠ 404 := by
  constructor <;> decide

/-- C5 (amended): for every product operation, upstream 200 is passed
through as the response body and any transport failure maps to 503
carrying the upstream error text; upstream 404 maps to gateway NotFound
only on the by-id operations (get, update, delete), while on list and
create it maps to 503 like every other non-2xx status. -/
theorem upstream_response_mapping :
    (∀ m pid,
      get_products_map (.transportError m) =
          .httpError 503 ("Data service unavailable: " ++ m) ∧
        get_product_map pid (.transportError m) =
          .httpError 503 ("Data service unavailable: " ++ m) ∧
        create_product_map (.transportError m) =
          .httpError 503 ("Data service unavailable: " ++ m) ∧
        update_product_map pid (.transportError m) =
          .httpError 503 ("Data service unavailable: " ++ m) ∧
        delete_product_map pid (.transportError m) =
          .httpError 503 ("Data service unavailable: " ++ m)) ∧
    (∀ b pid,
      get_products_map (.resp 200 b) = .ok 200 (some b) ∧
        get_product_map pid (.resp 200 b) = .ok 200 (some b) ∧
        create_product_map (.resp 200 b) = .ok 201 (some b) ∧
        update_product_map pid (.resp 200 b) = .ok 200 (some b) ∧
        delete_product_map pid (.resp 200 b) = .ok 204 none) ∧
    (∀ b pid,
      get_product_map pid (.resp 404 b) =
          .httpError 404 ("Product with ID " ++ toString pid ++ " not found") ∧
        update_product_map pid (.resp 404 b) =
          .httpError 404 ("Product with ID " ++ toString pid ++ " not found") ∧
        delete_product_map pid (.resp 404 b) =
          .httpError 404 ("Product with ID " ++ toString pid ++ " not found") ∧
        (get_products_map (.resp 404 b)).stat = 503 ∧
        (create_product_map (.resp 404 b)).stat = 503) ∧
    (∀ code b pid, 400 ≤ code → code ≠ 404 →
      get_products_map (.resp code b) =
          unavailable (raise_for_status_msg code) ∧
        get_product_map pid (.resp code b) =
          unavailable (raise_for_status_msg code) ∧
        create_product_map (.resp code b) =
          unavailable (raise_for_status_msg code) ∧
        update_product_map pid (.resp code b) =
          unavailable (raise_for_status_msg code) ∧
        delete_product_map pid (.resp code b) =
          unavailable (raise_for_status_msg code)) := by
  refine ⟨?_, ?_, ?_, ?_⟩
  · intro m pid
    exact ⟨rfl, rfl, rfl, rfl, rfl⟩
  · intro b pid
    refine ⟨?_, ?_, ?_, ?_, ?_⟩ <;>
      simp [get_products_map, get_product_map, create_product_map,
        update_product_map, delete_product_map]
  · intro b pid
    refine ⟨?_, ?_, ?_, ?_, ?_⟩ <;>
      simp [get_products_map, get_product_map, create_product_map,
        update_product_map, delete_product_map, unavailable,
        GatewayResult.stat]
  · intro code b pid h400 hne
    refine ⟨?_, ?_, ?_, ?_, ?_⟩ <;>
      simp [get_products_map, get_product_map, create_product_map,
        update_product_map, delete_product_map, h400, hne,
        Nat.not_lt.mpr h400]

/-- C5 witness: the amended mapping at concrete inputs — a transport
failure on the list endpoint and an upstream 500 on the by-id get. -/
theorem upstream_response_mapping_witness :
    get_products_map (.transportError "timeout") =
        .httpError 503 "Data service unavailable: timeout" ∧
      get_product_map 7 (.resp 500 "boom") =
        unavailable (raise_for_status_msg 500) :=
  ⟨(upstream_response_mapping.1 "timeout" 0).1,
   ((upstream_response_mapping.2.2.2 500 "boom" 7 (by decide) (by decide)).2.1)⟩

/-- C6: `/health` always answers HTTP 200 — healthy/connected on an
upstream 200, degraded/unavailable on any other status, and degraded
carrying the error message when the probe raises; the exception is
swallowed, never propagated as an error status. -/
theorem health_check_never_errors :
    (∀ u, (health_check u).1 = 200) ∧
    (∀ b, health_check (.resp 200 b) =
      (200, ⟨"healthy", some "connected", none⟩)) ∧
    (∀ code b, code ≠ 200 → health_check (.resp code b) =
      (200, ⟨"degraded", some "unavailable", none⟩)) ∧
    (∀ m, health_check (.transportError m) =
      (200, ⟨"degraded", none, some m⟩)) := by
  refine ⟨?_, ?_, ?_, ?_⟩
  · intro u
    cases u with
    | transportError m => rfl
    | resp code b =>
        simp only [health_check]
        split <;> rfl
  · intro b; rfl
  · intro code b hc
    simp [health_check, hc]
  · intro m; rfl

/-- C6 witness: the health endpoint at a concrete failing probe. -/
theorem health_check_never_errors_witness :
    health_check (.resp 503 "x") =
        (200, ⟨"degraded", some "unavailable", none⟩) ∧
      health_check (.transportError "refused") =
        (200, ⟨"degraded", none, some "refused"⟩) :=
  ⟨health_check_never_errors.2.2.1 503 "x" (by decide),
   health_check_never_errors.2.2.2 "refused"⟩

theorem users_find_none_iff (db : UsersDb) (k : String) :
    users_find db k = none ↔ k ∉ db.map Prod.fst := by
  induction db with
  | nil => simp [users_find]
  | cons hd tl ih =>
      obtain ⟨k0, v0⟩ := hd
      simp only [users_find, List.map_cons, List.mem_cons]
      by_cases hk : k0 = k
      · subst hk
        simp
      · rw [if_neg hk, ih]
        constructor
        · intro h1 hor
          rcases hor with h | h
          · exact hk h.symm
          · exact h1 h
        · intro h1 h2
          exact h1 (Or.inr h2)

theorem users_find_append_self (db : UsersDb) (k : String) (v : UserRecord)
    (h : users_find db k = none) : users_find (db ++ [(k, v)]) k = some v := by
  induction db with
  | nil => simp [users_find]
  | cons hd tl ih =>
      obtain ⟨k0, v0⟩ := hd
      simp only [users_find] at h
      simp only [List.cons_append, users_find]
      by_cases hk : k0 = k
      · rw [if_pos hk] at h
        exact absurd h (by simp)
      · rw [if_neg hk] at h
        rw [if_neg hk]
        exact ih h

theorem register_user_of_found (db : UsersDb) (u : UserCreate)
    (h : (users_find db u.username).isSome = true) :
    register_user db u = (.error 400 "Username already registered", db) := by
  unfold register_user
  rw [h]
  simp

theorem register_user_of_none (db : UsersDb) (u : UserCreate)
    (h : users_find db u.username = none) :
    register_user db u =
      (.created 201 ⟨u.username, u.email, false⟩,
       db ++ [(u.username,
         ⟨u.username, u.email, get_password_hash u.password, false⟩)]) := by
  unfold register_user
  rw [h]
  simp

theorem get_password_hash_ne_plaintext (p : String) :
    get_password_hash p ≠ p := by
  intro heq
  have hlen := congrArg String.length heq
  have h4 : ("$2b$" : String).length = 4 := rfl
  rw [get_password_hash, String.length_append, h4] at hlen
  omega

theorem register_user_keys_nodup (db : UsersDb) (u : UserCreate)
    (h : (db.map Prod.fst).Nodup) :
    (((register_user db u).2).map Prod.fst).Nodup := by
  unfold register_user
  by_cases hf : (users_find db u.username).isSome
  · simp [hf, h]
  · have hnone : users_find db u.username = none :=
      Option.not_isSome_iff_eq_none.mp hf
    have hnotin : u.username ∉ db.map Prod.fst :=
      (users_find_none_iff db u.username).mp hnone
    simp only [hf, if_false, Bool.false_eq_true]
    rw [List.map_append]
    refine List.Nodup.append h (by simp) ?_
    intro a ha hb
    simp at hb
    exact hnotin (hb ▸ ha)

theorem register_seq_keys_nodup (us : List UserCreate) (db : UsersDb)
    (h : (db.map Prod.fst).Nodup) :
    ((register_seq db us).map Prod.fst).Nodup := by
  induction us generalizing db with
  | nil => exact h
  | cons u rest ih => exact ih _ (register_user_keys_nodup db u h)

/-- C3: registering an absent username succeeds with 201, stores the
password hash (never equal to the plaintext), and any second
registration of that username fails with the 400 Conflict and leaves
the store unchanged. -/
theorem register_twice_success_then_conflict :
    ∀ (db : UsersDb) (u : UserCreate), users_find db u.username = none →
      register_user db u =
        (.created 201 ⟨u.username, u.email, false⟩,
         db ++ [(u.username,
           ⟨u.username, u.email, get_password_hash u.password, false⟩)]) ∧
      users_find (register_user db u).2 u.username =
        some ⟨u.username, u.email, get_password_hash u.password, false⟩ ∧
      (∀ p, get_password_hash p ≠ p) ∧
      (∀ u2 : UserCreate, u2.username = u.username →
        register_user (register_user db u).2 u2 =
          (.error 400 "Username already registered",
           (register_user db u).2)) := by
  intro db u h
  have heq := register_user_of_none db u h
  have hfind2 : users_find (register_user db u).2 u.username =
      some ⟨u.username, u.email, get_password_hash u.password, false⟩ := by
    rw [heq]
    exact users_find_append_self db u.username _ h
  refine ⟨heq, hfind2, get_password_hash_ne_plaintext, ?_⟩
  intro u2 hu2
  apply register_user_of_found
  rw [hu2, hfind2]
  rfl

/-- C3 witness: register a fresh username, then register it again. -/
theorem register_twice_witness :
    register_user (register_user [] ⟨"alice", "a", "pw"⟩).2
        ⟨"alice", "b", "q"⟩ =
      (.error 400 "Username already registered",
       (register_user [] ⟨"alice", "a", "pw"⟩).2) :=
  (register_twice_success_then_conflict [] ⟨"alice", "a", "pw"⟩ rfl).2.2.2
    ⟨"alice", "b", "q"⟩ rfl

/-- C4: starting from the empty store, after any sequence of
`register_user` operations the usernames (the store's keys) are
pairwise distinct, and a successful registration never overwrites an
existing record — every prior binding survives. -/
theorem register_uniqueness_invariant :
    (∀ us : List UserCreate,
      ((register_seq [] us).map Prod.fst).Nodup) ∧
    (∀ (db : UsersDb) (u : UserCreate) (s : ℕ) (r : UserResponse),
      (register_user db u).1 = .created s r →
      ∀ kv, kv ∈ db → kv ∈ (register_user db u).2) := by
  constructor
  · intro us
    exact register_seq_keys_nodup us [] (by simp)
  · intro db u s r hsucc kv hkv
    by_cases hf : (users_find db u.username).isSome = true
    · rw [register_user_of_found db u hf] at hsucc
      exact absurd hsucc (by simp)
    · have hnone := Option.not_isSome_iff_eq_none.mp hf
      rw [register_user_of_none db u hnone]
      exact List.mem_append_left _ hkv

/-- C4 witness: a successful registration on a one-entry store keeps
the existing binding. -/
theorem register_uniqueness_invariant_witness :
    ("bob", (⟨"bob", "b", "$2b$h", false⟩ : UserRecord)) ∈
      (register_user [("bob", ⟨"bob", "b", "$2b$h", false⟩)]
        ⟨"alice", "a", "pw"⟩).2 :=
  register_uniqueness_invariant.2 [("bob", ⟨"bob", "b", "$2b$h", false⟩)]
    ⟨"alice", "a", "pw"⟩ 201 ⟨"alice", "a", false⟩ (by decide)
    ("bob", ⟨"bob", "b", "$2b$h", false⟩) (by simp)

/-- C8: `POST /token` answers 401 exactly when the username is absent
from the store or the password fails to verify against the stored hash;
otherwise it returns a bearer token issued for subject `username`. -/
theorem login_401_iff_bad_credentials :
    ∀ (db : UsersDb) (username password : String) (now : ℕ),
      (login_for_access_token db username password now =
          .unauthorized 401 "Incorrect username or password" ↔
        users_find db username = none ∨
          ∃ u, users_find db username = some u ∧
            verify_password password u.hashed_password = false) ∧
      (∀ u, users_find db username = some u →
        verify_password password u.hashed_password = true →
        login_for_access_token db username password now =
          .token (.signed ⟨username, now + access_token_lifetime⟩)
            "bearer") := by
  intro db username password now
  constructor
  · unfold login_for_access_token
    cases hfind : users_find db username with
    | none => simp
    | some u =>
        by_cases hv : verify_password password u.hashed_password = true
        · simp [hv]
        · have hv2 : verify_password password u.hashed_password = false := by
            rwa [Bool.not_eq_true] at hv
          simp [hv2]
  · intro u hfind hv
    unfold login_for_access_token
    rw [hfind]
    simp [hv, create_access_token]

/-- C8 witness: a wrong password is 401, the right password yields the
bearer token for the username. -/
theorem login_401_iff_witness :
    login_for_access_token [("alice", ⟨"alice", "a", "$2b$pw", false⟩)]
        "alice" "pw" 0 =
      .token (.signed ⟨"alice", 0 + access_token_lifetime⟩) "bearer" ∧
    login_for_access_token [("alice", ⟨"alice", "a", "$2b$pw", false⟩)]
        "alice" "wrong" 0 =
      .unauthorized 401 "Incorrect username or password" :=
  ⟨(login_401_iff_bad_credentials _ "alice" "pw" 0).2
      ⟨"alice", "a", "$2b$pw", false⟩ (by decide) (by decide),
   (login_401_iff_bad_credentials
      [("alice", ⟨"alice", "a", "$2b$pw", false⟩)] "alice" "wrong" 0).1.mpr
      (Or.inr ⟨⟨"alice", "a", "$2b$pw", false⟩, by decide, by decide⟩)⟩

/-- C9: a token issued for subject U verifies to U at any time before
its expiry (a fixed duration from issuance) and fails verification at
or after its expiry. -/
theorem token_roundtrip_and_expiry :
    ∀ (U : String) (issued_at t : ℕ),
      (t < issued_at + access_token_lifetime →
        verify_token (create_access_token U issued_at) t = some U) ∧
      (issued_at + access_token_lifetime ≤ t →
        verify_token (create_access_token U issued_at) t = none) := by
  intro U i t
  constructor
  · intro h
    simp only [create_access_token, verify_token]
    rw [if_neg (by omega)]
  · intro h
    simp only [create_access_token, verify_token]
    rw [if_pos h]

/-- C9 witness: verification before and after expiry at concrete
times. -/
theorem token_roundtrip_witness :
    verify_token (create_access_token "u" 0) 5 = some "u" ∧
      verify_token (create_access_token "u" 0) 5000 = none :=
  ⟨(token_roundtrip_and_expiry "u" 0 5).1 (by decide),
   (token_roundtrip_and_expiry "u" 0 5000).2 (by decide)⟩

/-- C7: the guard parameter is declared on exactly the product create,
update, delete and who-am-I handlers (both product reads are public);
an absent bearer token, an invalid/expired token, or an unknown subject
makes a protected call answer 401 without running the handler; on
success the resolved user is injected into the handler. -/
theorem auth_guard_scope_and_behavior :
    (∀ e : Endpoint, requires_auth e = true ↔
      (e = .createProduct ∨ e = .updateProduct ∨ e = .deleteProduct ∨
        e = .usersMe)) ∧
    (requires_auth .listProducts = false ∧
      requires_auth .getProduct = false) ∧
    (∀ (db : UsersDb) (now : ℕ) (handler : UserRecord → GatewayResult),
      protect db none now handler =
        (.httpError 401 "Not authenticated", false)) ∧
    (∀ (db : UsersDb) (tok : BearerToken) (now : ℕ)
        (handler : UserRecord → GatewayResult),
      verify_token tok now = none →
      protect db (some tok) now handler =
        (.httpError 401 "Not authenticated", false)) ∧
    (∀ (db : UsersDb) (tok : BearerToken) (now : ℕ) (sub : String)
        (handler : UserRecord → GatewayResult),
      verify_token tok now = some sub → users_find db sub = none →
      protect db (some tok) now handler =
        (.httpError 401 "Not authenticated", false)) ∧
    (∀ (db : UsersDb) (auth : Option BearerToken) (now : ℕ)
        (handler : UserRecord → GatewayResult) (u : UserRecord),
      get_current_user db auth now = .ok u →
      protect db auth now handler = (handler u, true)) := by
  refine ⟨?_, ⟨rfl, rfl⟩, ?_, ?_, ?_, ?_⟩
  · intro e
    cases e <;> simp [requires_auth]
  · intro db now handler
    rfl
  · intro db tok now handler h
    simp [protect, get_current_user, h]
  · intro db tok now sub handler hv hfind
    simp [protect, get_current_user, hv, hfind]
  · intro db auth now handler u h
    simp [protect, h]

/-- C7 witness: a valid token resolves to the stored user and the
handler runs with it injected; no token gives 401 with the handler
never running. -/
theorem auth_guard_witness :
    protect [("alice", ⟨"alice", "a", "$2b$pw", false⟩)]
        (some (.signed ⟨"alice", 100⟩)) 0
        (fun u => .ok 200 (some u.email)) = (.ok 200 (some "a"), true) ∧
      protect [] none 0 (fun _ => .ok 200 none) =
        (.httpError 401 "Not authenticated", false) :=
  ⟨auth_guard_scope_and_behavior.2.2.2.2.2
      [("alice", ⟨"alice", "a", "$2b$pw", false⟩)]
      (some (.signed ⟨"alice", 100⟩)) 0
      (fun u => .ok 200 (some u.email))
      ⟨"alice", "a", "$2b$pw", false⟩ (by simp [get_current_user,
        verify_token, users_find]),
   auth_guard_scope_and_behavior.2.2.1 [] 0 (fun _ => .ok 200 none)⟩

theorem setField_fields_set (u : ProductUpdate) (f : PField) (v : JValue)
    (u2 : ProductUpdate) (h : setField u f v = some u2) :
    u2.fields_set = u.fields_set := by
  cases f <;> cases v <;> simp only [setField] at h <;> try split at h
  all_goals
    first
      | exact Option.noConfusion h
      | (injection h with h2; subst h2; rfl)

theorem parseFrom_fields_set :
    ∀ (kvs : List (PField × JValue)) (u0 u : ProductUpdate),
      parseFrom u0 kvs = some u →
      ∀ f, f ∈ u.fields_set ↔
        (f ∈ u0.fields_set ∨ ∃ v, (f, v) ∈ kvs) := by
  intro kvs
  induction kvs with
  | nil =>
      intro u0 u h f
      simp only [parseFrom] at h
      cases h
      simp
  | cons kv rest ih =>
      obtain ⟨g, v⟩ := kv
      intro u0 u h f
      simp only [parseFrom] at h
      cases hset : setField u0 g v with
      | none => rw [hset] at h; exact Option.noConfusion h
      | some u2 =>
          rw [hset] at h
          have hrec := ih _ u h f
          rw [hrec]
          simp only [setField_fields_set u0 g v u2 hset,
            List.mem_cons, Prod.mk.injEq]
          by_cases hg : g ∈ u0.fields_set
          · rw [if_pos hg]
            constructor
            · rintro (h1 | ⟨w, h1⟩)
              · exact Or.inl h1
              · exact Or.inr ⟨w, Or.inr h1⟩
            · rintro (h1 | ⟨w, h1 | h1⟩)
              · exact Or.inl h1
              · obtain ⟨hf, _⟩ := h1
                exact Or.inl (hf ▸ hg)
              · exact Or.inr ⟨w, h1⟩
          · rw [if_neg hg]
            constructor
            · rintro (h1 | ⟨w, h1⟩)
              · rcases List.mem_append.mp h1 with h2 | h2
                · exact Or.inl h2
                · have hf : f = g := by simpa using h2
                  exact Or.inr ⟨v, Or.inl ⟨hf, rfl⟩⟩
              · exact Or.inr ⟨w, Or.inr h1⟩
            · rintro (h1 | ⟨w, h1 | h1⟩)
              · exact Or.inl (List.mem_append.mpr (Or.inl h1))
              · obtain ⟨hf, _⟩ := h1
                subst hf
                exact Or.inl (List.mem_append.mpr (Or.inr (by simp)))
              · exact Or.inr ⟨w, h1⟩

theorem dictExcludeUnset_keys (u : ProductUpdate) (f : PField) :
    (∃ v, (f, v) ∈ ProductUpdate.dictExcludeUnset u) ↔
      f ∈ u.fields_set := by
  constructor
  · rintro ⟨v, hv⟩
    simp only [ProductUpdate.dictExcludeUnset] at hv
    have := (List.mem_filter.mp hv).2
    simpa using this
  · intro hf
    cases f with
    | name =>
        refine ⟨optStr u.name, ?_⟩
        simp only [ProductUpdate.dictExcludeUnset]
        exact List.mem_filter.mpr
          ⟨by simp [ProductUpdate.dict], by simpa using hf⟩
    | description =>
        refine ⟨optStr u.description, ?_⟩
        simp only [ProductUpdate.dictExcludeUnset]
        exact List.mem_filter.mpr
          ⟨by simp [ProductUpdate.dict], by simpa using hf⟩
    | price =>
        refine ⟨optNum u.price, ?_⟩
        simp only [ProductUpdate.dictExcludeUnset]
        exact List.mem_filter.mpr
          ⟨by simp [ProductUpdate.dict], by simpa using hf⟩
    | stock_quantity =>
        refine ⟨optInt u.stock_quantity, ?_⟩
        simp only [ProductUpdate.dictExcludeUnset]
        exact List.mem_filter.mpr
          ⟨by simp [ProductUpdate.dict], by simpa using hf⟩
    | category =>
        refine ⟨optStr u.category, ?_⟩
        simp only [ProductUpdate.dictExcludeUnset]
        exact List.mem_filter.mpr
          ⟨by simp [ProductUpdate.dict], by simpa using hf⟩

/-- C2: the JSON body `update_product` forwards upstream contains a key
for exactly the fields the caller explicitly provided in the request —
unset fields are omitted, never sent as null. -/
theorem update_forwards_exactly_set_fields :
    ∀ (kvs : List (PField × JValue)) (u : ProductUpdate),
      parseProductUpdate kvs = some u →
      ∀ f : PField,
        (∃ v, (f, v) ∈ update_product_body u) ↔ ∃ v, (f, v) ∈ kvs := by
  intro kvs u h f
  have h1 := parseFrom_fields_set kvs {} u h f
  rw [update_product_body, dictExcludeUnset_keys, h1]
  have h0 : ({} : ProductUpdate).fields_set = [] := rfl
  rw [h0]
  simp

/-- C2 witness: a price-only update request forwards a body with a price
key and no name key. -/
theorem update_forwards_exactly_set_fields_witness :
    ((∃ v, (PField.price, v) ∈
        update_product_body ⟨none, none, some 5, none, none, [.price]⟩) ↔
      ∃ v, (PField.price, v) ∈ [(PField.price, JValue.num 5)]) ∧
    ((∃ v, (PField.name, v) ∈
        update_product_body ⟨none, none, some 5, none, none, [.price]⟩) ↔
      ∃ v, (PField.name, v) ∈ [(PField.price, JValue.num 5)]) :=
  ⟨update_forwards_exactly_set_fields [(.price, .num 5)]
      ⟨none, none, some 5, none, none, [.price]⟩ (by decide) .price,
   update_forwards_exactly_set_fields [(.price, .num 5)]
      ⟨none, none, some 5, none, none, [.price]⟩ (by decide) .name⟩
